import Mathlib

/-!
Shallow embedding of the blog service's controllers (post, comment, like)
and of the frontend comment widget, together with proofs about them.

The document store is modelled as explicit lists of records; ObjectIds are
natural numbers allocated from a `nextId` counter; `req.user.id` and route
parameters are passed as arguments.  Each controller is a pure function from
a database state (plus request data) to a response and a new database state.
Controllers whose claims concern thrown database errors additionally come in
a fault-injected variant: one `Bool` per `await`ed database operation saying
whether that operation throws, with execution stopping at the first throw,
exactly as a rejected promise stops the `async` function's body.
-/

namespace Blog

/-- An HTTP response: the status code and the `message` field of the JSON
body the controller sent. -/
structure Response where
  status : Nat
  message : String
deriving DecidableEq, Repr

/-- A Like document: `(user, post)` membership record. -/
structure Like where
  lid : Nat
  user : Nat
  post : Nat
deriving DecidableEq, Repr

/-- A Comment document: content authored by a user, scoped to one post.
`createdAt` is the timestamp used by the frontend's sorting. -/
structure Comment where
  cid : Nat
  content : String
  author : Nat
  post : Nat
  createdAt : Nat
deriving DecidableEq, Repr

/-- A Post document, with denormalized id arrays for tags, categories,
comments and likes. -/
structure Post where
  pid : Nat
  title : String
  content : String
  author : Nat
  tags : List Nat
  categories : List Nat
  comments : List Nat
  likes : List Nat
deriving DecidableEq, Repr

/-- A Tag document. -/
structure Tag where
  tid : Nat
  name : String
deriving DecidableEq, Repr

/-- A Category document. -/
structure Category where
  catId : Nat
  name : String
deriving DecidableEq, Repr

/-- The document store: one list per collection, plus the counter from which
fresh ObjectIds are allocated. -/
structure DB where
  posts : List Post
  comments : List Comment
  likes : List Like
  tags : List Tag
  categories : List Category
  nextId : Nat
deriving DecidableEq, Repr

/-- `Post.findById(id)`: the first post whose `_id` matches. -/
def findPost (db : DB) (pid : Nat) : Option Post :=
  db.posts.find? (fun p => p.pid == pid)

/-- `Comment.findById(id)`: the first comment whose `_id` matches. -/
def findComment (db : DB) (cid : Nat) : Option Comment :=
  db.comments.find? (fun c => c.cid == cid)

/-- `post.save()` / `Post.updateOne({_id: pid}, ...)` write-back: replace the
first post whose `_id` matches by the updated document. -/
def updateFirstPost : List Post → Nat → (Post → Post) → List Post
  | [], _, _ => []
  | p :: rest, pid, f =>
    if p.pid == pid then f p :: rest else p :: updateFirstPost rest pid f

/-- `comment.save()` write-back: replace the first comment whose `_id`
matches by the updated document. -/
def updateFirstComment : List Comment → Nat → (Comment → Comment) → List Comment
  | [], _, _ => []
  | c :: rest, cid, f =>
    if c.cid == cid then f c :: rest else c :: updateFirstComment rest cid f

/-- `post.deleteOne()`: delete the first post whose `_id` matches. -/
def removeFirstPost : List Post → Nat → List Post
  | [], _ => []
  | p :: rest, pid => if p.pid == pid then rest else p :: removeFirstPost rest pid

/-- `comment.deleteOne()`: delete the first comment whose `_id` matches. -/
def removeFirstComment : List Comment → Nat → List Comment
  | [], _ => []
  | c :: rest, cid => if c.cid == cid then rest else c :: removeFirstComment rest cid

/-- `like.deleteOne()`: delete the first like whose `_id` matches. -/
def removeFirstLike : List Like → Nat → List Like
  | [], _ => []
  | l :: rest, lid => if l.lid == lid then rest else l :: removeFirstLike rest lid

/-- JavaScript `x ? x : old` / `x || old` on an optional string: an absent or
empty string is falsy and yields `old`. -/
def jsOr (newVal : Option String) (old : String) : String :=
  match newVal with
  | none => old
  | some s => if s = "" then old else s

/-- Outcome of a controller call: either a response was sent (with the
resulting database state), or an exception escaped the handler uncaught. -/
inductive Outcome where
  | resp (r : Response) (db : DB)
  | escaped (db : DB)
deriving DecidableEq, Repr

/-- `true` iff the outcome is an uncaught exception. -/
def Outcome.isEscaped : Outcome → Bool
  | .resp _ _ => false
  | .escaped _ => true

/-- The status code of the response, if one was sent. -/
def Outcome.statusOf : Outcome → Option Nat
  | .resp r _ => some r.status
  | .escaped _ => none

/-- The database state after the call. -/
def Outcome.db : Outcome → DB
  | .resp _ db => db
  | .escaped db => db

/-! ## Like controller (`likeController.js`) -/

/-- `Like.findOne({ user: userId, post: postId })`. -/
def findLikeByUserPost (db : DB) (userId postId : Nat) : Option Like :=
  db.likes.find? (fun l => l.user == userId && l.post == postId)

/-- `addLike`, fault-injected: one flag per awaited database operation
(`Post.findById`, `Like.findOne`, `post.save`, `like.save`).  All of the
body sits inside the `try`, so a throw is answered by the `catch` with 500 —
unless a 400 was already sent, in which case the client keeps the 400.
The 400 branch for an existing like sends the response but does not
`return`, so execution falls through and performs both writes anyway. -/
def addLikeF (db : DB) (userId postId : Nat)
    (failFindPost failFindLike failPostSave failLikeSave : Bool) : Outcome :=
  if failFindPost then .resp ⟨500, "Failed to add like to post."⟩ db
  else
    match findPost db postId with
    | none => .resp ⟨404, "Post not found."⟩ db
    | some post =>
      if failFindLike then .resp ⟨500, "Failed to add like to post."⟩ db
      else
        let existing := findLikeByUserPost db userId postId
        let dupSent := existing.isSome
        let lid := db.nextId
        let post1 := { post with likes := post.likes ++ [lid] }
        let onErr : Response :=
          if dupSent then ⟨400, "You have already liked this post."⟩
          else ⟨500, "Failed to add like to post."⟩
        if failPostSave then .resp onErr { db with nextId := lid + 1 }
        else
          let db1 := { db with
            posts := updateFirstPost db.posts postId (fun _ => post1),
            nextId := lid + 1 }
          if failLikeSave then .resp onErr db1
          else
            let db2 := { db1 with likes := db1.likes ++ [⟨lid, userId, postId⟩] }
            if dupSent then .resp ⟨400, "You have already liked this post."⟩ db2
            else .resp ⟨201, "Post Liked Successfully"⟩ db2

/-- `addLike` on the fault-free path. -/
def addLike (db : DB) (userId postId : Nat) : Outcome :=
  addLikeF db userId postId false false false false

/-- `removeLike`: find the caller's like on the post, 404 if absent, 403 if
`like.user` differs from the caller, else delete the like and filter its id
out of the post's `likes` array.  If the post no longer exists, reading
`post.likes` of `null` throws and the `catch` answers 500. -/
def removeLike (db : DB) (userId postId : Nat) : Outcome :=
  match findLikeByUserPost db userId postId with
  | none => .resp ⟨404, "Like Not Found"⟩ db
  | some like =>
    if like.user ≠ userId then
      .resp ⟨403, "You are not authorized to remove this like."⟩ db
    else
      let db1 := { db with likes := removeFirstLike db.likes like.lid }
      match findPost db1 postId with
      | none => .resp ⟨500, "Failed to remove like from post"⟩ db1
      | some post =>
        let post1 := { post with likes := post.likes.filter (fun x => x ≠ like.lid) }
        let db2 := { db1 with posts := updateFirstPost db1.posts postId (fun _ => post1) }
        .resp ⟨200, "Like removed successfully."⟩ db2

/-! ## Comments controller (`commentsController.js`) -/

/-- The JSON body of a response carrying comments: either a bare array or an
object whose string-keyed fields hold comment arrays. -/
inductive CommentsJson where
  | array (cs : List Comment)
  | object (fields : List (String × List Comment))
deriving DecidableEq, Repr

/-- `getAllComments` response body: `res.json({ allComments })` where
`allComments = Comment.find({ post: postId })`. -/
def getAllCommentsBody (db : DB) (postId : Nat) : CommentsJson :=
  .object [("allComments", db.comments.filter (fun c => c.post == postId))]

/-- `createComment`, fault-injected: flags for `Post.findById`,
`comment.save`, `chosenPost.save`.  Everything is inside the `try`, so any
throw is answered with 500; writes completed before the throw persist. -/
def createCommentF (db : DB) (userId postId : Nat) (content : String)
    (createdAt : Nat) (failFind failCommentSave failPostSave : Bool) : Outcome :=
  if failFind then .resp ⟨500, "Failed to fetch comment"⟩ db
  else
    match findPost db postId with
    | none => .resp ⟨404, "Post not found"⟩ db
    | some chosenPost =>
      let cid := db.nextId
      let comment : Comment := ⟨cid, content, userId, postId, createdAt⟩
      if failCommentSave then
        .resp ⟨500, "Failed to fetch comment"⟩ { db with nextId := cid + 1 }
      else
        let db1 := { db with comments := db.comments ++ [comment], nextId := cid + 1 }
        if failPostSave then .resp ⟨500, "Failed to fetch comment"⟩ db1
        else
          let post1 := { chosenPost with comments := chosenPost.comments ++ [cid] }
          let db2 := { db1 with posts := updateFirstPost db1.posts postId (fun _ => post1) }
          .resp ⟨201, "Comment created successfully"⟩ db2

/-- `createComment` on the fault-free path. -/
def createComment (db : DB) (userId postId : Nat) (content : String)
    (createdAt : Nat) : Outcome :=
  createCommentF db userId postId content createdAt false false false

/-- `editCommentById`: 404 if the comment is absent, 403 if the caller is not
its author; otherwise `comment.content = req.body.content || comment.content`
and save, answering 200. -/
def editCommentById (db : DB) (userId cid : Nat) (content : Option String) : Outcome :=
  match findComment db cid with
  | none => .resp ⟨404, "Comment not found"⟩ db
  | some comment =>
    if userId ≠ comment.author then
      .resp ⟨403, "You are not the Author. You may not edit this comment"⟩ db
    else
      let comment1 := { comment with content := jsOr content comment.content }
      let db1 := { db with comments := updateFirstComment db.comments cid (fun _ => comment1) }
      .resp ⟨200, "Comment updated successfully"⟩ db1

/-- `deleteCommentById`: 404 if absent, 403 if the caller is not the author;
otherwise `$pull` the comment id from its post's `comments` array and delete
the comment, answering 200. -/
def deleteCommentById (db : DB) (userId cid : Nat) : Outcome :=
  match findComment db cid with
  | none => .resp ⟨404, "Comment not found"⟩ db
  | some comment =>
    if userId ≠ comment.author then
      .resp ⟨403, "You are not the Author. You may not edit this comment"⟩ db
    else
      let db1 := { db with
        posts := updateFirstPost db.posts comment.post
          (fun p => { p with comments := p.comments.filter (fun x => x ≠ comment.cid) }) }
      let db2 := { db1 with comments := removeFirstComment db1.comments cid }
      .resp ⟨200, "Comment deleted successfully"⟩ db2

/-! ## Post controller (`postController.js`) -/

/-- `createOrGetTags`: for each name, find the tag by name or create it,
returning the collected ids and the updated store. -/
def createOrGetTags : DB → List String → List Nat × DB
  | db, [] => ([], db)
  | db, name :: rest =>
    match db.tags.find? (fun t => t.name == name) with
    | some t =>
      let (ids, db1) := createOrGetTags db rest
      (t.tid :: ids, db1)
    | none =>
      let t : Tag := ⟨db.nextId, name⟩
      let db1 := { db with tags := db.tags ++ [t], nextId := db.nextId + 1 }
      let (ids, db2) := createOrGetTags db1 rest
      (t.tid :: ids, db2)

/-- `createOrGetCategories`: same find-or-create over categories. -/
def createOrGetCategories : DB → List String → List Nat × DB
  | db, [] => ([], db)
  | db, name :: rest =>
    match db.categories.find? (fun c => c.name == name) with
    | some c =>
      let (ids, db1) := createOrGetCategories db rest
      (c.catId :: ids, db1)
    | none =>
      let c : Category := ⟨db.nextId, name⟩
      let db1 := { db with categories := db.categories ++ [c], nextId := db.nextId + 1 }
      let (ids, db2) := createOrGetCategories db1 rest
      (c.catId :: ids, db2)

/-- Modelled from the spec: `cleanUpTags` lives in `utils/cleanup.js`, which
is not among the sources; per the spec it removes the tags that are no longer
referenced by any post. -/
def cleanUpTags (db : DB) : DB :=
  { db with tags := db.tags.filter (fun t => db.posts.any (fun p => p.tags.contains t.tid)) }

/-- Modelled from the spec: `cleanUpCategories` lives in `utils/cleanup.js`,
which is not among the sources; per the spec it removes the categories that
are no longer referenced by any post. -/
def cleanUpCategories (db : DB) : DB :=
  { db with categories :=
      db.categories.filter (fun c => db.posts.any (fun p => p.categories.contains c.catId)) }

/-- `updatePost`, fault-injected.  `Post.findById` runs before the `try`
block, so a throw there escapes the handler; the 404 and 403 checks also run
before the `try`.  Inside the `try`: optional tag and category resolution,
then `findByIdAndUpdate`, each answered with 500 by the `catch` on a throw. -/
def updatePostF (db : DB) (userId postId : Nat) (title content : Option String)
    (tags categories : Option (List String))
    (failFind failTags failCats failUpdate : Bool) : Outcome :=
  if failFind then .escaped db
  else
    match findPost db postId with
    | none => .resp ⟨404, "Post not found"⟩ db
    | some chosenPost =>
      if userId ≠ chosenPost.author then
        .resp ⟨403, "You are not the author of this post."⟩ db
      else
        if tags.isSome && failTags then .resp ⟨500, "Failed to create post"⟩ db
        else
          let (tagIds, db1) := match tags with
            | some ts => createOrGetTags db ts
            | none => (chosenPost.tags, db)
          if categories.isSome && failCats then .resp ⟨500, "Failed to create post"⟩ db1
          else
            let (catIds, db2) := match categories with
              | some cs => createOrGetCategories db1 cs
              | none => (chosenPost.categories, db1)
            if failUpdate then .resp ⟨500, "Failed to create post"⟩ db2
            else
              let setFields := fun (p : Post) => { p with
                title := jsOr title chosenPost.title,
                content := jsOr content chosenPost.content,
                tags := tagIds,
                categories := catIds }
              let db3 := { db2 with posts := updateFirstPost db2.posts postId setFields }
              .resp ⟨200, "Post updated successfully"⟩ db3

/-- `updatePost` on the fault-free path. -/
def updatePost (db : DB) (userId postId : Nat) (title content : Option String)
    (tags categories : Option (List String)) : Outcome :=
  updatePostF db userId postId title content tags categories false false false false

/-- `deletePost`, fault-injected.  `Post.findById` runs before the `try`
block, so a throw there escapes the handler; the 404 and 403 checks also run
before the `try`.  Inside the `try`: `Like.deleteMany`, `Comment.deleteMany`,
`post.deleteOne`, `cleanUpTags`, `cleanUpCategories`, each answered with 500
by the `catch` on a throw, with earlier writes persisting. -/
def deletePostF (db : DB) (userId postId : Nat)
    (failFind failDelLikes failDelComments failDelPost failCleanTags failCleanCats : Bool) :
    Outcome :=
  if failFind then .escaped db
  else
    match findPost db postId with
    | none => .resp ⟨404, "Post not found"⟩ db
    | some post =>
      if userId ≠ post.author then
        .resp ⟨403, "You are not the author of this post."⟩ db
      else
        if failDelLikes then .resp ⟨500, "Failed to delete post"⟩ db
        else
          let db1 := { db with likes := db.likes.filter (fun l => !(l.post == post.pid)) }
          if failDelComments then .resp ⟨500, "Failed to delete post"⟩ db1
          else
            let db2 := { db1 with comments := db1.comments.filter (fun c => !(c.post == post.pid)) }
            if failDelPost then .resp ⟨500, "Failed to delete post"⟩ db2
            else
              let db3 := { db2 with posts := removeFirstPost db2.posts post.pid }
              if failCleanTags then .resp ⟨500, "Failed to delete post"⟩ db3
              else
                let db4 := cleanUpTags db3
                if failCleanCats then .resp ⟨500, "Failed to delete post"⟩ db4
                else .resp ⟨200, "Post deleted successfully"⟩ (cleanUpCategories db4)

/-- `deletePost` on the fault-free path. -/
def deletePost (db : DB) (userId postId : Nat) : Outcome :=
  deletePostF db userId postId false false false false false false

/-! ## Frontend comment widget (`CommentSection.jsx`) -/

/-- `fetchComments`' state update on a successful response: JavaScript
`Array.isArray(data) ? data : Array.isArray(data.comments) ? data.comments : []`
applied to the parsed body, the result passed to `setComments`. -/
def fetchCommentsNewState (data : CommentsJson) : List Comment :=
  match data with
  | .array cs => cs
  | .object fields =>
    match fields.lookup "comments" with
    | some cs => cs
    | none => []

/-- The widget state touched by `renderComments`. -/
structure WidgetState where
  comments : List Comment
  sortOption : String
deriving DecidableEq, Repr

/-- `renderComments`: sort a copy (`[...comments]`) of the comments state by
`createdAt`, descending for `"newest"`, ascending for `"oldest"`, leaving the
order unchanged otherwise; the state itself is returned untouched. -/
def renderComments (s : WidgetState) : List Comment × WidgetState :=
  let sortedComments :=
    if s.sortOption = "newest" then
      s.comments.mergeSort (fun a b => decide (b.createdAt ≤ a.createdAt))
    else if s.sortOption = "oldest" then
      s.comments.mergeSort (fun a b => decide (a.createdAt ≤ b.createdAt))
    else s.comments
  (sortedComments, s)

/-! ## Concrete fixtures used by the closed theorems and witnesses -/

/-- A sample post: `_id` 1, author 5, one tag, one category, one comment,
one like. -/
def exPost : Post := ⟨1, "First post", "Hello world", 5, [3], [4], [7], [10]⟩

/-- A sample comment: `_id` 7 on post 1, author 2. -/
def exComment : Comment := ⟨7, "Nice post", 2, 1, 40⟩

/-- A sample like: `_id` 10, user 2 on post 1. -/
def exLike : Like := ⟨10, 2, 1⟩

/-- A sample store holding the post, its comment, its like, the referenced
tag and category. -/
def exDB : DB := ⟨[exPost], [exComment], [exLike], [⟨3, "news"⟩], [⟨4, "tech"⟩], 100⟩

/-- The update document `findByIdAndUpdate` writes back: `title`/`content`
when truthy, else the old values, plus the resolved tag and category ids. -/
def setTitleContent (ti co : Option String) (post : Post) (tagIds catIds : List Nat) :
    Post → Post :=
  fun p => { p with
    title := jsOr ti post.title,
    content := jsOr co post.content,
    tags := tagIds,
    categories := catIds }

/-! ## Helper lemmas -/

@[simp] theorem Outcome.isEscaped_resp (r : Response) (db : DB) :
    (Outcome.resp r db).isEscaped = false := rfl

@[simp] theorem Outcome.isEscaped_escaped (db : DB) :
    (Outcome.escaped db).isEscaped = true := rfl

@[simp] theorem Outcome.statusOf_resp (r : Response) (db : DB) :
    (Outcome.resp r db).statusOf = some r.status := rfl

@[simp] theorem Outcome.statusOf_escaped (db : DB) :
    (Outcome.escaped db).statusOf = none := rfl

@[simp] theorem Outcome.db_resp (r : Response) (db : DB) :
    (Outcome.resp r db).db = db := rfl

@[simp] theorem Outcome.db_escaped (db : DB) :
    (Outcome.escaped db).db = db := rfl


/-- A post returned by `findPost db pid` has `_id` equal to `pid`. -/
theorem findPost_pid {db : DB} {pid : Nat} {post : Post}
    (h : findPost db pid = some post) : post.pid = pid := by
  have h' : db.posts.find? (fun p => p.pid == pid) = some post := h
  simpa using List.find?_some h'

/-- A comment returned by `findComment db cid` has `_id` equal to `cid`. -/
theorem findComment_cid {db : DB} {cid : Nat} {c : Comment}
    (h : findComment db cid = some c) : c.cid = cid := by
  have h' : db.comments.find? (fun x => x.cid == cid) = some c := h
  simpa using List.find?_some h'

/-- A like returned by `Like.findOne({user, post})` matches the query. -/
theorem findLikeByUserPost_spec {db : DB} {u p : Nat} {l : Like}
    (h : findLikeByUserPost db u p = some l) : l.user = u ∧ l.post = p := by
  have h' : db.likes.find? (fun x => x.user == u && x.post == p) = some l := h
  simpa using List.find?_some h'

/-- Tag resolution never touches the posts collection. -/
theorem createOrGetTags_posts : ∀ (ts : List String) (db : DB),
    (createOrGetTags db ts).2.posts = db.posts
  | [], _ => rfl
  | name :: rest, db => by
    rw [createOrGetTags]
    cases h : db.tags.find? (fun t => t.name == name) with
    | some t => simpa using createOrGetTags_posts rest db
    | none => simpa using createOrGetTags_posts rest _

/-- Category resolution never touches the posts collection. -/
theorem createOrGetCategories_posts : ∀ (cs : List String) (db : DB),
    (createOrGetCategories db cs).2.posts = db.posts
  | [], _ => rfl
  | name :: rest, db => by
    rw [createOrGetCategories]
    cases h : db.categories.find? (fun c => c.name == name) with
    | some c => simpa using createOrGetCategories_posts rest db
    | none => simpa using createOrGetCategories_posts rest _

/-- Writing back the first `_id` match commutes with looking it up, when the
write-back keeps the `_id`. -/
theorem find?_updateFirstPost (posts : List Post) (pid : Nat) (f : Post → Post)
    (hf : ∀ p, (f p).pid = p.pid) :
    (updateFirstPost posts pid f).find? (fun p => p.pid == pid) =
      (posts.find? (fun p => p.pid == pid)).map f := by
  induction posts with
  | nil => rfl
  | cons p rest ih =>
    by_cases h : p.pid = pid
    · rw [updateFirstPost, if_pos (by simpa using h)]
      rw [List.find?_cons_of_pos _ (by simpa using hf p ▸ h),
        List.find?_cons_of_pos _ (by simpa using h)]
      rfl
    · rw [updateFirstPost, if_neg (by simpa using h)]
      rw [List.find?_cons_of_neg _ (by simpa using h),
        List.find?_cons_of_neg _ (by simpa using h), ih]

/-- Writing the document found by `_id` back unchanged leaves the collection
unchanged. -/
theorem updateFirstComment_self (comments : List Comment) (cid : Nat) (c : Comment)
    (h : comments.find? (fun x => x.cid == cid) = some c) :
    updateFirstComment comments cid (fun _ => c) = comments := by
  induction comments with
  | nil => simp at h
  | cons a rest ih =>
    by_cases ha : a.cid = cid
    · rw [List.find?_cons_of_pos _ (by simpa using ha)] at h
      rw [updateFirstComment, if_pos (by simpa using ha)]
      simpa using h.symm
    · rw [List.find?_cons_of_neg _ (by simpa using ha)] at h
      rw [updateFirstComment, if_neg (by simpa using ha), ih h]

/-- After deleting the first `_id` match from a collection whose `_id`s are
distinct, no document with that `_id` remains. -/
theorem removeFirstPost_pid_ne (posts : List Post) (pid : Nat)
    (hnd : (posts.map Post.pid).Nodup) :
    ∀ q ∈ removeFirstPost posts pid, q.pid ≠ pid := by
  induction posts with
  | nil => intro q hq; simp [removeFirstPost] at hq
  | cons p rest ih =>
    intro q hq
    rw [List.map_cons, List.nodup_cons] at hnd
    by_cases h : p.pid = pid
    · rw [removeFirstPost, if_pos (by simpa using h)] at hq
      intro hqp
      exact hnd.1 (h ▸ hqp ▸ List.mem_map_of_mem Post.pid hq)
    · rw [removeFirstPost, if_neg (by simpa using h)] at hq
      rcases List.mem_cons.mp hq with rfl | hq'
      · exact h
      · exact ih hnd.2 q hq'

/-! ## Claim theorems -/

/-- C1: refuted on the code.  When a like by `(user, post)` already exists,
`addLike` sends the 400 response but does not `return`, so it still creates a
second Like document for the same `(user, post)` pair and pushes its id onto
the post's `likes` array: here user 2 already likes post 1, the call answers
400, yet afterwards two Like documents match `(user 2, post 1)` and the
post's `likes` array has grown. -/
theorem addLike_duplicate_creates_like_anyway :
    (addLike exDB 2 1).statusOf = some 400 ∧
    ((addLike exDB 2 1).db.likes.filter (fun l => l.user == 2 && l.post == 1)).length = 2 ∧
    (addLike exDB 2 1).db.likes.length = exDB.likes.length + 1 ∧
    (addLike exDB 2 1).db.posts ≠ exDB.posts := by
  refine ⟨rfl, rfl, rfl, ?_⟩
  decide

/-- C2: refuted on the code.  The backend's `getAllComments` sends
`{ allComments: [...] }`, but the widget's `fetchComments` only accepts a
bare array or a `comments` field, falling back to `[]`: on a post with one
comment the backend body carries that comment under `allComments`, yet the
widget's new `comments` state is the empty list. -/
theorem fetchComments_drops_backend_comments :
    getAllCommentsBody exDB 1 = .object [("allComments", [exComment])] ∧
    fetchCommentsNewState (getAllCommentsBody exDB 1) = [] ∧
    [exComment] ≠ ([] : List Comment) := by
  refine ⟨rfl, rfl, ?_⟩
  decide

/-- C9: the 403 branch of `removeLike` is unreachable.  The like is found by
`Like.findOne({ user: req.user.id, post: req.params.id })`, so any like it
returns already has `user` equal to the caller, the inequality guard never
fires, and no request is answered 403. -/
theorem removeLike_forbidden_unreachable (db : DB) (u p : Nat) :
    (removeLike db u p).statusOf ≠ some 403 ∧
    ∀ l : Like, findLikeByUserPost db u p = some l → l.user = u := by
  constructor
  · cases h : findLikeByUserPost db u p with
    | none => simp [removeLike, h]
    | some like =>
      have hu := (findLikeByUserPost_spec h).1
      cases h2 : findPost { db with likes := removeFirstLike db.likes like.lid } p <;>
        simp [removeLike, h, hu, h2]
  · intro l hl
    exact (findLikeByUserPost_spec hl).1

/-- Witness for C9: on the sample store, user 2's request on post 1 finds
like 10, is not answered 403, and the found like belongs to user 2. -/
theorem removeLike_forbidden_unreachable_witness :
    (removeLike exDB 2 1).statusOf ≠ some 403 ∧ Like.user ⟨10, 2, 1⟩ = 2 :=
  ⟨(removeLike_forbidden_unreachable exDB 2 1).1,
    (removeLike_forbidden_unreachable exDB 2 1).2 ⟨10, 2, 1⟩ rfl⟩

/-- C5: on an existing comment whose author differs from the caller, both
`editCommentById` and `deleteCommentById` answer 403 Forbidden and leave the
whole store — the comment and its post's `comments` array included —
unchanged. -/
theorem comment_edit_delete_author_only (db : DB) (u cid : Nat)
    (content : Option String) (comment : Comment)
    (hfind : findComment db cid = some comment) (hne : u ≠ comment.author) :
    editCommentById db u cid content =
      .resp ⟨403, "You are not the Author. You may not edit this comment"⟩ db ∧
    deleteCommentById db u cid =
      .resp ⟨403, "You are not the Author. You may not edit this comment"⟩ db := by
  constructor
  · simp [editCommentById, hfind, hne]
  · simp [deleteCommentById, hfind, hne]

/-- Witness for C5: user 9 is not the author of comment 7 (user 2 is), and
both calls answer 403 leaving the sample store unchanged. -/
theorem comment_edit_delete_author_only_witness :
    editCommentById exDB 9 7 (some "hacked") =
      .resp ⟨403, "You are not the Author. You may not edit this comment"⟩ exDB ∧
    deleteCommentById exDB 9 7 =
      .resp ⟨403, "You are not the Author. You may not edit this comment"⟩ exDB :=
  comment_edit_delete_author_only exDB 9 7 (some "hacked") exComment rfl (by decide)

/-- C6: on an existing post whose author differs from the caller, both
`updatePost` and `deletePost` answer 403 Forbidden and leave the whole store
— posts, comments, likes, tags and categories — unchanged. -/
theorem post_update_delete_author_only (db : DB) (u pid : Nat)
    (title content : Option String) (tags categories : Option (List String))
    (post : Post) (hfind : findPost db pid = some post) (hne : u ≠ post.author) :
    updatePost db u pid title content tags categories =
      .resp ⟨403, "You are not the author of this post."⟩ db ∧
    deletePost db u pid =
      .resp ⟨403, "You are not the author of this post."⟩ db := by
  constructor
  · simp [updatePost, updatePostF, hfind, hne]
  · simp [deletePost, deletePostF, hfind, hne]

/-- Witness for C6: user 9 is not the author of post 1 (user 5 is), and both
calls answer 403 leaving the sample store unchanged. -/
theorem post_update_delete_author_only_witness :
    updatePost exDB 9 1 (some "t") (some "c") none none =
      .resp ⟨403, "You are not the author of this post."⟩ exDB ∧
    deletePost exDB 9 1 =
      .resp ⟨403, "You are not the author of this post."⟩ exDB :=
  post_update_delete_author_only exDB 9 1 (some "t") (some "c") none none exPost rfl
    (by decide)

/-- C7: the paired denormalized writes are not atomic.  In the execution of
`addLike` where `post.save()` succeeds and the subsequent `like.save()`
throws, the post's `likes` array keeps the new id 100 although no Like
document with that id exists — the like collection is exactly what it was,
so the first write was not rolled back.  In the execution of `createComment`
where `comment.save()` succeeds and `chosenPost.save()` throws, the new
Comment document 100 exists but no post's `comments` array references it —
the posts are exactly what they were, so again nothing was rolled back. -/
theorem denormalized_writes_not_atomic :
    ((addLikeF exDB 3 1 false false false true).db.posts.any
      (fun p => p.likes.contains 100)) = true ∧
    ((addLikeF exDB 3 1 false false false true).db.likes.all
      (fun l => !(l.lid == 100))) = true ∧
    (addLikeF exDB 3 1 false false false true).db.likes = exDB.likes ∧
    ((createCommentF exDB 3 1 "hello" 50 false false true).db.comments.any
      (fun c => c.cid == 100)) = true ∧
    ((createCommentF exDB 3 1 "hello" 50 false false true).db.posts.all
      (fun p => !(p.comments.contains 100))) = true ∧
    (createCommentF exDB 3 1 "hello" 50 false false true).db.posts = exDB.posts := by
  refine ⟨rfl, rfl, ?_, rfl, rfl, ?_⟩ <;> decide

/-- C8: `renderComments` renders a permutation of the `comments` state,
ordered by nonincreasing `createdAt` when `sortOption` is `"newest"` and by
nondecreasing `createdAt` when it is `"oldest"`, and it sorts a copy: the
widget state it hands back is the state it was given, untouched. -/
theorem renderComments_sorts_copy (cs : List Comment) :
    ((renderComments ⟨cs, "newest"⟩).1.Perm cs ∧
      List.Sorted (fun a b => b.createdAt ≤ a.createdAt) (renderComments ⟨cs, "newest"⟩).1 ∧
      (renderComments ⟨cs, "newest"⟩).2 = ⟨cs, "newest"⟩) ∧
    ((renderComments ⟨cs, "oldest"⟩).1.Perm cs ∧
      List.Sorted (fun a b => a.createdAt ≤ b.createdAt) (renderComments ⟨cs, "oldest"⟩).1 ∧
      (renderComments ⟨cs, "oldest"⟩).2 = ⟨cs, "oldest"⟩) := by
  have hnew : (renderComments ⟨cs, "newest"⟩).1 =
      cs.mergeSort (fun a b => decide (b.createdAt ≤ a.createdAt)) := by
    simp [renderComments]
  have hold : (renderComments ⟨cs, "oldest"⟩).1 =
      cs.mergeSort (fun a b => decide (a.createdAt ≤ b.createdAt)) := by
    simp [renderComments]
  refine ⟨⟨?_, ?_, rfl⟩, ⟨?_, ?_, rfl⟩⟩
  · rw [hnew]; exact List.mergeSort_perm cs _
  · rw [hnew]
    have h := @List.sorted_mergeSort Comment
      (fun a b => decide (b.createdAt ≤ a.createdAt))
      (fun a b c h1 h2 => by simp at h1 h2 ⊢; exact Nat.le_trans h2 h1)
      (fun a b => by simpa using Nat.le_total b.createdAt a.createdAt) cs
    simpa [List.Sorted] using h
  · rw [hold]; exact List.mergeSort_perm cs _
  · rw [hold]
    have h := @List.sorted_mergeSort Comment
      (fun a b => decide (a.createdAt ≤ b.createdAt))
      (fun a b c h1 h2 => by simp at h1 h2 ⊢; exact Nat.le_trans h1 h2)
      (fun a b => by simpa using Nat.le_total a.createdAt b.createdAt) cs
    simpa [List.Sorted] using h

/-! ### C3 helper lemmas: per-controller fault behaviour -/

/-- Every path of `createComment` lies inside its `try`, so no injected
throw escapes. -/
theorem createCommentF_never_escapes (db : DB) (u p : Nat) (c : String) (t : Nat)
    (fF fS fP : Bool) : (createCommentF db u p c t fF fS fP).isEscaped = false := by
  rcases h : findPost db p with _ | post <;> cases fF <;> cases fS <;> cases fP <;>
    simp [createCommentF, h]

/-- Every path of `addLike` lies inside its `try`, so no injected throw
escapes. -/
theorem addLikeF_never_escapes (db : DB) (u p : Nat) (f1 f2 f3 f4 : Bool) :
    (addLikeF db u p f1 f2 f3 f4).isEscaped = false := by
  rcases h : findPost db p with _ | post <;> cases f1 <;> cases f2 <;> cases f3 <;>
    cases f4 <;>
    simp [addLikeF, h, apply_ite Outcome.isEscaped]

/-- `updatePost` escapes exactly when its initial `Post.findById`, which runs
before the `try`, throws. -/
theorem updatePostF_escapes_iff_findById (db : DB) (u p : Nat)
    (ti co : Option String) (ta ca : Option (List String)) (fF fT fC fU : Bool) :
    (updatePostF db u p ti co ta ca fF fT fC fU).isEscaped = fF := by
  cases fF
  · rcases h : findPost db p with _ | post
    · simp [updatePostF, h]
    · by_cases hu : u = post.author <;>
        simp [updatePostF, h, hu, apply_ite Outcome.isEscaped]
  · simp [updatePostF]

/-- `deletePost` escapes exactly when its initial `Post.findById`, which runs
before the `try`, throws. -/
theorem deletePostF_escapes_iff_findById (db : DB) (u p : Nat) (f1 f2 f3 f4 f5 f6 : Bool) :
    (deletePostF db u p f1 f2 f3 f4 f5 f6).isEscaped = f1 := by
  cases f1
  · rcases h : findPost db p with _ | post
    · simp [deletePostF, h]
    · by_cases hu : u = post.author <;>
        simp [deletePostF, h, hu, apply_ite Outcome.isEscaped]
  · simp [deletePostF]

/-- `createComment` answers 500 exactly when one of its executed database
operations throws. -/
theorem createCommentF_500_iff (db : DB) (u p : Nat) (c : String) (t : Nat)
    (fF fS fP : Bool) :
    (createCommentF db u p c t fF fS fP).statusOf = some 500 ↔
      (fF = true ∨ ((findPost db p).isSome = true ∧ (fS = true ∨ fP = true))) := by
  rcases h : findPost db p with _ | post <;> cases fF <;> cases fS <;> cases fP <;>
    simp [createCommentF, h]

/-- `addLike` answers 500 exactly when an executed database operation throws
outside the duplicate-like fall-through (after the premature 400, the client
keeps the 400 even if a save then throws). -/
theorem addLikeF_500_iff (db : DB) (u p : Nat) (f1 f2 f3 f4 : Bool) :
    (addLikeF db u p f1 f2 f3 f4).statusOf = some 500 ↔
      (f1 = true ∨ ((findPost db p).isSome = true ∧ (f2 = true ∨
        ((findLikeByUserPost db u p).isNone = true ∧ (f3 = true ∨ f4 = true))))) := by
  rcases h : findPost db p with _ | post <;>
    rcases hE : findLikeByUserPost db u p with _ | l <;>
      cases f1 <;> cases f2 <;> cases f3 <;> cases f4 <;>
        simp [addLikeF, h, hE, apply_ite Outcome.statusOf]

/-- On an existing post with the right author, `updatePost` answers 500
exactly when one of the operations inside its `try` throws. -/
theorem updatePostF_500_iff (db : DB) (u p : Nat) (ti co : Option String)
    (ta ca : Option (List String)) (fT fC fU : Bool) (post : Post)
    (hfind : findPost db p = some post) (hauth : u = post.author) :
    (updatePostF db u p ti co ta ca false fT fC fU).statusOf = some 500 ↔
      ((fT && ta.isSome) || (fC && ca.isSome) || fU) = true := by
  cases fT <;> cases fC <;> cases fU <;> rcases ta with _ | ts <;> rcases ca with _ | cs <;>
    simp [updatePostF, hfind, hauth]

/-- On an existing post with the right author, `deletePost` answers 500
exactly when one of the operations inside its `try` throws. -/
theorem deletePostF_500_iff (db : DB) (u p : Nat) (f2 f3 f4 f5 f6 : Bool) (post : Post)
    (hfind : findPost db p = some post) (hauth : u = post.author) :
    (deletePostF db u p false f2 f3 f4 f5 f6).statusOf = some 500 ↔
      (f2 || f3 || f4 || f5 || f6) = true := by
  cases f2 <;> cases f3 <;> cases f4 <;> cases f5 <;> cases f6 <;>
    simp [deletePostF, hfind, hauth]

/-- C3 counterexample: a thrown database error is not always caught and
answered 500.  When the initial `Post.findById`, which `updatePost` and
`deletePost` run before entering their `try` blocks, throws, the error
escapes the handler and no 500 response is sent. -/
theorem updatePost_findById_error_escapes :
    (updatePostF exDB 5 1 none none none none true false false false).isEscaped = true ∧
    (updatePostF exDB 5 1 none none none none true false false false).statusOf ≠ some 500 ∧
    (deletePostF exDB 5 1 true false false false false false).isEscaped = true ∧
    (deletePostF exDB 5 1 true false false false false false).statusOf ≠ some 500 := by
  refine ⟨rfl, ?_, rfl, ?_⟩ <;> decide

/-- C3 (amended): database errors thrown inside the controllers' `try`
blocks are caught and answered 500 — `createComment` and `addLike` never let
any thrown database error escape (though after `addLike`'s fall-through 400
the client keeps the 400) — but `updatePost` and `deletePost` run their
initial `Post.findById` before the `try`, and an error thrown there escapes
the handler unhandled instead of producing a 500. -/
theorem controllers_catch_inside_try_only :
    (∀ db u p c t fF fS fP, (createCommentF db u p c t fF fS fP).isEscaped = false) ∧
    (∀ db u p f1 f2 f3 f4, (addLikeF db u p f1 f2 f3 f4).isEscaped = false) ∧
    (∀ db u p ti co ta ca fF fT fC fU,
      (updatePostF db u p ti co ta ca fF fT fC fU).isEscaped = fF) ∧
    (∀ db u p f1 f2 f3 f4 f5 f6, (deletePostF db u p f1 f2 f3 f4 f5 f6).isEscaped = f1) ∧
    (∀ db u p c t fF fS fP,
      (createCommentF db u p c t fF fS fP).statusOf = some 500 ↔
        (fF = true ∨ ((findPost db p).isSome = true ∧ (fS = true ∨ fP = true)))) ∧
    (∀ db u p f1 f2 f3 f4,
      (addLikeF db u p f1 f2 f3 f4).statusOf = some 500 ↔
        (f1 = true ∨ ((findPost db p).isSome = true ∧ (f2 = true ∨
          ((findLikeByUserPost db u p).isNone = true ∧ (f3 = true ∨ f4 = true)))))) ∧
    (∀ db u p ti co ta ca fT fC fU post, findPost db p = some post → u = post.author →
      ((updatePostF db u p ti co ta ca false fT fC fU).statusOf = some 500 ↔
        ((fT && ta.isSome) || (fC && ca.isSome) || fU) = true)) ∧
    (∀ db u p f2 f3 f4 f5 f6 post, findPost db p = some post → u = post.author →
      ((deletePostF db u p false f2 f3 f4 f5 f6).statusOf = some 500 ↔
        (f2 || f3 || f4 || f5 || f6) = true)) :=
  ⟨createCommentF_never_escapes, addLikeF_never_escapes,
    updatePostF_escapes_iff_findById, deletePostF_escapes_iff_findById,
    createCommentF_500_iff, addLikeF_500_iff,
    fun db u p ti co ta ca fT fC fU post hfind hauth =>
      updatePostF_500_iff db u p ti co ta ca fT fC fU post hfind hauth,
    fun db u p f2 f3 f4 f5 f6 post hfind hauth =>
      deletePostF_500_iff db u p f2 f3 f4 f5 f6 post hfind hauth⟩

/-- Witness for C3 (amended): post 1 exists with author 5; a throw in
`updatePost`'s `findByIdAndUpdate` and in `deletePost`'s `Like.deleteMany`
is answered 500. -/
theorem controllers_catch_inside_try_only_witness :
    findPost exDB 1 = some exPost ∧ (5 : Nat) = exPost.author ∧
    ((updatePostF exDB 5 1 none none none none false false false true).statusOf = some 500 ↔
      ((false && (none : Option (List String)).isSome) ||
        (false && (none : Option (List String)).isSome) || true) = true) ∧
    ((deletePostF exDB 5 1 false true false false false false).statusOf = some 500 ↔
      (true || false || false || false || false) = true) :=
  ⟨rfl, rfl,
    controllers_catch_inside_try_only.2.2.2.2.2.2.1 exDB 5 1 none none none none
      false false true exPost rfl rfl,
    controllers_catch_inside_try_only.2.2.2.2.2.2.2 exDB 5 1 true false false false false
      exPost rfl rfl⟩

/-! ### C4: deletePost cascade -/

/-- Shape of an authorized `deletePost` on an existing post: every step of
the cascade applied in order. -/
theorem deletePost_shape (db : DB) (u pid : Nat) (post : Post)
    (hfind : findPost db pid = some post) (hauth : u = post.author) :
    deletePost db u pid = .resp ⟨200, "Post deleted successfully"⟩
      { posts := removeFirstPost db.posts post.pid,
        comments := db.comments.filter (fun c => !(c.post == post.pid)),
        likes := db.likes.filter (fun l => !(l.post == post.pid)),
        tags := db.tags.filter
          (fun t => (removeFirstPost db.posts post.pid).any (fun p => p.tags.contains t.tid)),
        categories := db.categories.filter
          (fun c => (removeFirstPost db.posts post.pid).any
            (fun p => p.categories.contains c.catId)),
        nextId := db.nextId } := by
  simp [deletePost, deletePostF, hfind, hauth, cleanUpTags, cleanUpCategories]

/-- C4: an authorized `deletePost` on an existing post (with distinct post
ids) answers 200 after deleting every Like and every Comment whose `post`
field references the post, deleting the post itself, and pruning the tags
and categories down to exactly those still referenced by a remaining post. -/
theorem deletePost_cascades_and_prunes (db : DB) (u pid : Nat) (post : Post)
    (hfind : findPost db pid = some post) (hauth : u = post.author)
    (hnd : (db.posts.map Post.pid).Nodup) :
    (deletePost db u pid).statusOf = some 200 ∧
    (∀ l ∈ (deletePost db u pid).db.likes, l.post ≠ pid) ∧
    (∀ c ∈ (deletePost db u pid).db.comments, c.post ≠ pid) ∧
    (∀ q ∈ (deletePost db u pid).db.posts, q.pid ≠ pid) ∧
    (∀ t : Tag, t ∈ (deletePost db u pid).db.tags ↔
      (t ∈ db.tags ∧ ∃ q ∈ (deletePost db u pid).db.posts, t.tid ∈ q.tags)) ∧
    (∀ c : Category, c ∈ (deletePost db u pid).db.categories ↔
      (c ∈ db.categories ∧ ∃ q ∈ (deletePost db u pid).db.posts, c.catId ∈ q.categories)) := by
  have hpid : post.pid = pid := findPost_pid hfind
  subst hpid
  rw [deletePost_shape db u post.pid post hfind hauth]
  refine ⟨rfl, ?_, ?_, ?_, ?_, ?_⟩
  · intro l hl
    exact (show l ∈ db.likes ∧ ¬ l.post = post.pid by simpa using hl).2
  · intro c hc
    exact (show c ∈ db.comments ∧ ¬ c.post = post.pid by simpa using hc).2
  · intro q hq
    exact removeFirstPost_pid_ne db.posts post.pid hnd q (by simpa using hq)
  · intro t
    simp [List.mem_filter, List.any_eq_true]
  · intro c
    simp [List.mem_filter, List.any_eq_true]

/-- Witness for C4: author 5 deletes post 1 in the sample store; the call is
authorized, applicable, and answers 200. -/
theorem deletePost_cascades_and_prunes_witness :
    findPost exDB 1 = some exPost ∧ (5 : Nat) = exPost.author ∧
    (exDB.posts.map Post.pid).Nodup ∧
    (deletePost exDB 5 1).statusOf = some 200 :=
  ⟨rfl, rfl, by decide,
    (deletePost_cascades_and_prunes exDB 5 1 exPost rfl rfl (by decide)).1⟩

/-! ### C10: falsy `title` / `content` handling -/

/-- Looking up the post after `findByIdAndUpdate` wrote back an `_id`
preserving update yields the updated first match. -/
theorem findPost_after_setFields (db dbx : DB) (pid : Nat) (post : Post)
    (hfind : findPost db pid = some post) (hposts : dbx.posts = db.posts)
    (f : Post → Post) (hf : ∀ p, (f p).pid = p.pid) :
    findPost { dbx with posts := updateFirstPost dbx.posts pid f } pid = some (f post) := by
  show (updateFirstPost dbx.posts pid f).find? (fun p => p.pid == pid) = some (f post)
  rw [hposts, find?_updateFirstPost db.posts pid f hf,
    show db.posts.find? (fun p => p.pid == pid) = some post from hfind]
  rfl

/-- An authorized `updatePost` on an existing post answers 200 and leaves,
under the post's id, the old document with `title := title || old`,
`content := content || old` and some resolved tag/category id lists. -/
theorem updatePost_found (db : DB) (u pid : Nat) (ti co : Option String)
    (ta ca : Option (List String)) (post : Post)
    (hfind : findPost db pid = some post) (hauth : u = post.author) :
    ∃ tagIds catIds,
      (updatePost db u pid ti co ta ca).statusOf = some 200 ∧
      findPost (updatePost db u pid ti co ta ca).db pid =
        some (setTitleContent ti co post tagIds catIds post) := by
  subst hauth
  rcases ta with _ | ts <;> rcases ca with _ | cs
  · refine ⟨post.tags, post.categories, by simp [updatePost, updatePostF, hfind], ?_⟩
    have hres : (updatePost db post.author pid ti co none none).db =
        { db with
          posts := updateFirstPost db.posts pid
            (fun p => setTitleContent ti co post post.tags post.categories p) } := by
      simp [updatePost, updatePostF, hfind, setTitleContent]
    rw [hres]
    exact findPost_after_setFields db db pid post hfind rfl _ (fun p => rfl)
  · refine ⟨post.tags, (createOrGetCategories db cs).1,
      by simp [updatePost, updatePostF, hfind], ?_⟩
    have hres : (updatePost db post.author pid ti co none (some cs)).db =
        { (createOrGetCategories db cs).2 with
          posts := updateFirstPost (createOrGetCategories db cs).2.posts pid
            (fun p => setTitleContent ti co post post.tags (createOrGetCategories db cs).1 p) } := by
      simp [updatePost, updatePostF, hfind, setTitleContent]
    rw [hres]
    exact findPost_after_setFields db _ pid post hfind
      (createOrGetCategories_posts cs db) _ (fun p => rfl)
  · refine ⟨(createOrGetTags db ts).1, post.categories,
      by simp [updatePost, updatePostF, hfind], ?_⟩
    have hres : (updatePost db post.author pid ti co (some ts) none).db =
        { (createOrGetTags db ts).2 with
          posts := updateFirstPost (createOrGetTags db ts).2.posts pid
            (fun p => setTitleContent ti co post (createOrGetTags db ts).1 post.categories p) } := by
      simp [updatePost, updatePostF, hfind, setTitleContent]
    rw [hres]
    exact findPost_after_setFields db _ pid post hfind
      (createOrGetTags_posts ts db) _ (fun p => rfl)
  · refine ⟨(createOrGetTags db ts).1,
      (createOrGetCategories (createOrGetTags db ts).2 cs).1,
      by simp [updatePost, updatePostF, hfind], ?_⟩
    have hres : (updatePost db post.author pid ti co (some ts) (some cs)).db =
        { (createOrGetCategories (createOrGetTags db ts).2 cs).2 with
          posts := updateFirstPost
            (createOrGetCategories (createOrGetTags db ts).2 cs).2.posts pid
            (fun p => setTitleContent ti co post (createOrGetTags db ts).1
              (createOrGetCategories (createOrGetTags db ts).2 cs).1 p) } := by
      simp [updatePost, updatePostF, hfind, setTitleContent]
    rw [hres]
    refine findPost_after_setFields db _ pid post hfind ?_ _ (fun p => rfl)
    rw [createOrGetCategories_posts, createOrGetTags_posts]

/-- C10: an authorized `editCommentById` whose `req.body.content` is missing
or the empty string keeps the stored content (the falsy value is discarded
by `content || comment.content`), writes the comment back unchanged and
answers 200; an authorized `updatePost` whose `title` or `content` is
missing or empty likewise retains the existing field value and answers
200. -/
theorem falsy_fields_retain_existing_values :
    (∀ db u cid comment body, findComment db cid = some comment → u = comment.author →
      (body = none ∨ body = some "") →
      editCommentById db u cid body = .resp ⟨200, "Comment updated successfully"⟩ db) ∧
    (∀ db u pid post ti co ta ca, findPost db pid = some post → u = post.author →
      (updatePost db u pid ti co ta ca).statusOf = some 200 ∧
      ∃ p', findPost (updatePost db u pid ti co ta ca).db pid = some p' ∧
        ((ti = none ∨ ti = some "") → p'.title = post.title) ∧
        ((co = none ∨ co = some "") → p'.content = post.content)) := by
  constructor
  · intro db u cid comment body hfind hauth hbody
    have hc : { comment with content := jsOr body comment.content } = comment := by
      rcases hbody with rfl | rfl <;> simp [jsOr]
    simp [editCommentById, hfind, hauth, hc,
      updateFirstComment_self db.comments cid comment hfind]
  · intro db u pid post ti co ta ca hfind hauth
    obtain ⟨tagIds, catIds, h200, hfp⟩ :=
      updatePost_found db u pid ti co ta ca post hfind hauth
    refine ⟨h200, _, hfp, ?_, ?_⟩
    · intro hti; rcases hti with rfl | rfl <;> simp [setTitleContent, jsOr]
    · intro hco; rcases hco with rfl | rfl <;> simp [setTitleContent, jsOr]

/-- Witness for C10: comment 7 edited by its author 2 with an absent body is
written back unchanged with a 200; post 1 updated by its author 5 with an
empty title and absent content answers 200 and keeps its title "First post"
and content "Hello world". -/
theorem falsy_fields_retain_existing_values_witness :
    editCommentById exDB 2 7 none = .resp ⟨200, "Comment updated successfully"⟩ exDB ∧
    (updatePost exDB 5 1 (some "") none none none).statusOf = some 200 :=
  ⟨falsy_fields_retain_existing_values.1 exDB 2 7 exComment none rfl rfl (Or.inl rfl),
    (falsy_fields_retain_existing_values.2 exDB 5 1 exPost (some "") none none none
      rfl rfl).1⟩

end Blog
